import Mathlib

/-!
# Storefront: order creation, checkout, cart store and catalogue listing

A shallow embedding of the order controller, the product controller
(`backend-code.js`) and of the checkout form and the cart hook
(`frontend-code.js`), followed by the properties established about them.

Remote collaborators (the payment gateway, the document store, the HTTP
service the checkout form calls) are parameters: a call either resolves
with a value or rejects with an error message (`Except String`).

JavaScript `Number` arithmetic is a parameter `N` of the code that computes
(with `+`, `*` and the literals it uses).  What a JavaScript engine computes
is the instance `F64`, a model of the finite IEEE-754 binary64 values with
round-to-nearest-even (overflow apart); exact rationals (`ℚ`) serve for
comparison.
-/

namespace Shop

/-! ## Binary64 arithmetic -/

/-- Floor of the base-two logarithm, by repeated halving (`fuel` bounds the number of halvings). -/
def ilog2Aux : Nat → Nat → Nat
  | 0, _ => 0
  | fuel + 1, n => if n < 2 then 0 else ilog2Aux fuel (n / 2) + 1

/-- Floor of the base-two logarithm of a positive natural number. -/
def ilog2 (n : Nat) : Nat := ilog2Aux n n

/-- Removes the factors of two of a significand, raising the exponent accordingly. -/
def stripTwos : Nat → Nat → Int → Nat × Int
  | 0, m, e => (m, e)
  | fuel + 1, m, e => if m ≠ 0 ∧ m % 2 = 0 then stripTwos fuel (m / 2) (e + 1) else (m, e)

/-- Rounds the positive rational `p / q` to the nearest binary64 value, ties to the even
significand: the result is `(n, s)` standing for `n * 2^s`, where `2^s` is the unit in the
last place (53 significant bits, never below the subnormal spacing `2^-1074`). -/
def roundPos (p q : Nat) : Nat × Int :=
  let k : Int := (ilog2 p : Int) - (ilog2 q : Int)
  let ge : Bool := if 0 ≤ k then decide (q * 2 ^ k.toNat ≤ p) else decide (q ≤ p * 2 ^ (-k).toNat)
  let e : Int := if ge then k else k - 1
  let s : Int := max (e - 52) (-1074)
  let P : Nat := if s < 0 then p * 2 ^ (-s).toNat else p
  let Q : Nat := if s < 0 then q else q * 2 ^ s.toNat
  let n := P / Q
  let r := P % Q
  let n1 := if 2 * r < Q then n else if Q < 2 * r then n + 1 else if n % 2 = 0 then n else n + 1
  (n1, s)

/-- A finite binary64 value `m * 2^e` in canonical form: `m` is odd, or `m = 0` and `e = 0`. -/
structure F64 where
  m : Int
  e : Int
deriving DecidableEq, Repr

namespace F64

/-- The binary64 value nearest to the rational `n / d` (`d ≠ 0`). -/
def ofFrac (n : Int) (d : Nat) : F64 :=
  if n = 0 ∨ d = 0 then ⟨0, 0⟩
  else
    let r := roundPos n.natAbs d
    let c := stripTwos 64 r.1 r.2
    if c.1 = 0 then ⟨0, 0⟩ else ⟨(if n < 0 then -1 else 1) * (c.1 : Int), c.2⟩

/-- Numerator of the exact value, over the denominator `den`. -/
def num (x : F64) : Int := if 0 ≤ x.e then x.m * 2 ^ x.e.toNat else x.m

/-- Denominator of the exact value. -/
def den (x : F64) : Nat := if 0 ≤ x.e then 1 else 2 ^ (-x.e).toNat

/-- The exact value as a rational number. -/
def toRat (x : F64) : ℚ := (x.num : ℚ) / (x.den : ℚ)

/-- Binary64 addition: the exact sum, rounded. -/
def add (x y : F64) : F64 := ofFrac (x.num * y.den + y.num * x.den) (x.den * y.den)

/-- Binary64 multiplication: the exact product, rounded. -/
def mul (x y : F64) : F64 := ofFrac (x.num * y.num) (x.den * y.den)

instance : Add F64 := ⟨add⟩
instance : Mul F64 := ⟨mul⟩
instance (n : Nat) : OfNat F64 n := ⟨ofFrac n 1⟩

/-- Order of the exact values, by cross-multiplication. -/
instance : LE F64 := ⟨fun x y => x.num * y.den ≤ y.num * x.den⟩

/-- Strict order of the exact values, by cross-multiplication. -/
instance : LT F64 := ⟨fun x y => x.num * y.den < y.num * x.den⟩

instance (x y : F64) : Decidable (x ≤ y) :=
  inferInstanceAs (Decidable (x.num * y.den ≤ y.num * x.den))

instance (x y : F64) : Decidable (x < y) :=
  inferInstanceAs (Decidable (x.num * y.den < y.num * x.den))

/-- The value is a whole number from 0 to `2^53 - 1`, in canonical form. -/
def IsWhole (x : F64) : Prop := x.num.toNat < 2 ^ 53 ∧ x = ofFrac (x.num.toNat : Int) 1

instance (x : F64) : Decidable x.IsWhole :=
  inferInstanceAs (Decidable (x.num.toNat < 2 ^ 53 ∧ x = ofFrac (x.num.toNat : Int) 1))

end F64

/-! ## Server: the Order model and `createOrder` -/

/-- One line of `items` in the Order schema. -/
structure OrderItem (N : Type) where
  product : String
  quantity : N
  price : N
deriving DecidableEq, Repr

/-- The `shippingAddress` sub-document. -/
structure ShippingAddress where
  street : String
  city : String
  state : String
  country : String
  zipCode : String
deriving DecidableEq, Repr

/-- The request body of `createOrder`.  Only `items`, `shippingAddress` and `paymentMethod` are
destructured by the handler; `totalAmount` stands for a total the client may have put in the body. -/
structure OrderBody (N : Type) where
  items : List (OrderItem N)
  shippingAddress : ShippingAddress
  paymentMethod : String
  totalAmount : Option N
deriving DecidableEq, Repr

/-- The argument of `stripe.paymentIntents.create`. -/
structure IntentParams (N : Type) where
  amount : N
  currency : String
deriving DecidableEq, Repr

/-- What the handler reads of the payment intent the gateway answers. -/
structure PaymentIntent where
  id : String
  client_secret : String
deriving DecidableEq, Repr

/-- The `paymentStatus` enum of the schema. -/
inductive PaymentStatus where
  | pending
  | completed
  | failed
deriving DecidableEq, Repr

/-- The `orderStatus` enum of the schema. -/
inductive OrderStatus where
  | processing
  | shipped
  | delivered
  | cancelled
deriving DecidableEq, Repr

/-- The argument the handler passes to `Order.create`. -/
structure OrderDoc (N : Type) where
  user : String
  items : List (OrderItem N)
  totalAmount : N
  shippingAddress : ShippingAddress
  paymentMethod : String
  paymentIntent : String
deriving DecidableEq, Repr

/-- A stored Order document, with the schema defaults applied. -/
structure Order (N : Type) where
  _id : String
  user : String
  items : List (OrderItem N)
  totalAmount : N
  shippingAddress : ShippingAddress
  paymentStatus : PaymentStatus
  orderStatus : OrderStatus
  paymentMethod : String
deriving DecidableEq, Repr

/-- The payment gateway: resolves with a payment intent or rejects with a message. -/
abbrev Gateway (N : Type) := IntentParams N → Except String PaymentIntent

/-- The document store behind `Order.create`: resolves with the new id or rejects with a message. -/
abbrev Store (N : Type) := OrderDoc N → Except String String

/-- The body of the HTTP answer of `createOrder`. -/
inductive Body (N : Type) where
  | created (order : Order N) (clientSecret : String)
  | error (message : String)
deriving DecidableEq, Repr

/-- The HTTP answer of `createOrder`. -/
structure Response (N : Type) where
  status : Nat
  body : Body N
deriving DecidableEq, Repr

/-- What a run of `createOrder` did to the outside world. -/
structure Effects (N : Type) where
  intentRequests : List (IntentParams N)
  intentsCreated : List PaymentIntent
  createCalls : List (OrderDoc N)
  persisted : List (Order N)
deriving DecidableEq, Repr

section Server

variable {N : Type} [Add N] [Mul N] [OfNat N 0] [OfNat N 100]

/-- The reduction of line 114: `items.reduce((sum, item) => sum + (item.price * item.quantity), 0)`. -/
def orderTotal (items : List (OrderItem N)) : N :=
  items.foldl (fun sum item => sum + (item.price * item.quantity)) 0

/-- The argument of `stripe.paymentIntents.create` (lines 117-120). -/
def paymentIntentParams (body : OrderBody N) : IntentParams N :=
  { amount := orderTotal body.items * 100, currency := "usd" }

/-- The argument of `Order.create` (lines 122-129). -/
def orderDocument (user : String) (body : OrderBody N) (paymentIntent : PaymentIntent) :
    OrderDoc N :=
  { user := user
    items := body.items
    totalAmount := orderTotal body.items
    shippingAddress := body.shippingAddress
    paymentMethod := body.paymentMethod
    paymentIntent := paymentIntent.id }

/-- The document stored for an argument of `Order.create`: its schema fields, the new id, and
`paymentStatus` and `orderStatus` at their schema defaults. -/
def storedOrder (id : String) (doc : OrderDoc N) : Order N :=
  { _id := id
    user := doc.user
    items := doc.items
    totalAmount := doc.totalAmount
    shippingAddress := doc.shippingAddress
    paymentStatus := .pending
    orderStatus := .processing
    paymentMethod := doc.paymentMethod }

/-- The model method `Order.create`: stores the document and resolves with it, or rejects. -/
def Order.create (db : Store N) (doc : OrderDoc N) : Except String (Order N) :=
  match db doc with
  | .error message => .error message
  | .ok id => .ok (storedOrder id doc)

/-- The handler `exports.createOrder` for an authenticated user: the answer, and what was
done to the gateway and to the store on the way. -/
def createOrder (stripe : Gateway N) (db : Store N) (user : String) (body : OrderBody N) :
    Response N × Effects N :=
  let params := paymentIntentParams body
  match stripe params with
  | .error message =>
    (⟨500, .error message⟩,
      { intentRequests := [params], intentsCreated := [], createCalls := [], persisted := [] })
  | .ok paymentIntent =>
    let doc := orderDocument user body paymentIntent
    match Order.create db doc with
    | .error message =>
      (⟨500, .error message⟩,
        { intentRequests := [params], intentsCreated := [paymentIntent], createCalls := [doc],
          persisted := [] })
    | .ok order =>
      (⟨201, .created order paymentIntent.client_secret⟩,
        { intentRequests := [params], intentsCreated := [paymentIntent], createCalls := [doc],
          persisted := [order] })

end Server

/-! ## Server: `getProducts` -/

/-- A record of the Product collection (the fields the listing reads or returns). -/
structure ProductRecord where
  _id : String
  name : String
  description : String
  price : F64
  category : String
  stock : F64
deriving DecidableEq, Repr

/-- The query parameters that `getProducts` destructures from `req.query`; `page` and `limit`
are whole numbers below `2^53`, for which the binary64 quotient `count / limit` and the exact
one have the same ceiling. -/
structure ListQuery where
  category : Option String
  search : Option String
  sort : Option String
  page : Option Nat
  limit : Option Nat
deriving DecidableEq, Repr

/-- The parts of the document database the listing relies on, none of which is in the
repository.  `regex` compiles a `$regex` pattern with `$options: 'i'`: it answers how the
pattern matches a text, or rejects a pattern that is not a regular expression.  `sortOrder`
reads the argument of `.sort`: it answers the order to sort by (`none` to keep the order of the
collection), or rejects an argument that is not a sort specification.  `negativeSkip` is the
message of the error raised for a negative `skip`. -/
structure Engine where
  regex : String → Except String (String → Bool)
  sortOrder : Option String → Except String (Option (ProductRecord → ProductRecord → Bool))
  negativeSkip : String

/-- JavaScript truthiness of an optional string parameter: present and non-empty. -/
def truthy : Option String → Option String
  | some s => if s = "" then none else some s
  | none => none

/-- The `query` object built in lines 78-86: a category to equal, a pattern for the name or
the description. -/
structure Filter where
  category : Option String
  search : Option String
deriving DecidableEq, Repr

/-- Lines 78-86: `category` and `search` enter the `query` object when they are truthy. -/
def buildQuery (q : ListQuery) : Filter :=
  { category := truthy q.category, search := truthy q.search }

/-- How the database reads a `query` object: the predicate it denotes, or the rejection of its
pattern. -/
def compileQuery (eng : Engine) (f : Filter) : Except String (ProductRecord → Bool) :=
  match f.search with
  | none =>
    .ok (fun p =>
      match f.category with
      | some category => decide (p.category = category)
      | none => true)
  | some search =>
    match eng.regex search with
    | .error message => .error message
    | .ok re =>
      .ok (fun p =>
        (match f.category with
          | some category => decide (p.category = category)
          | none => true) && (re p.name || re p.description))

/-- The value of `Math.ceil(count / limit)` as serialised: a number for `limit ≥ 1`, and `null`
(here `none`) for `limit = 0`, where the quotient is `Infinity` or `NaN`. -/
def mathCeilDiv (count limit : Nat) : Option Nat :=
  if limit = 0 then none else some ⌈(count : ℚ) / (limit : ℚ)⌉₊

/-- The HTTP answer of `getProducts`. -/
inductive ListResponse where
  | ok (products : List ProductRecord) (totalPages : Option Nat) (currentPage : Nat)
  | error (status : Nat) (message : String)
deriving DecidableEq, Repr

/-- The query `Product.find(query).sort(sort).limit(limit).skip(skip)`: rejected when the
database rejects the pattern, the sort argument or a negative `skip`; otherwise the matching
records, sorted, without the first `skip` of them, cut to `limit` of them unless `limit`
is 0. -/
def find (eng : Engine) (collection : List ProductRecord) (query : Filter)
    (sort : Option String) (limit : Nat) (skip : Int) : Except String (List ProductRecord) :=
  match compileQuery eng query with
  | .error message => .error message
  | .ok matching =>
    match eng.sortOrder sort with
    | .error message => .error message
    | .ok order =>
      if skip < 0 then .error eng.negativeSkip
      else
        let found := collection.filter matching
        let sorted :=
          match order with
          | some le => found.mergeSort le
          | none => found
        let rest := sorted.drop skip.toNat
        .ok (if limit = 0 then rest else rest.take limit)

/-- The query `Product.countDocuments(query)`. -/
def countDocuments (eng : Engine) (collection : List ProductRecord) (query : Filter) :
    Except String Nat :=
  match compileQuery eng query with
  | .error message => .error message
  | .ok matching => .ok (collection.filter matching).length

/-- The handler `exports.getProducts` over a collection that can be read: a rejection of either
query is caught and answered with 500 and its message. -/
def getProducts (eng : Engine) (collection : List ProductRecord) (query : ListQuery) :
    ListResponse :=
  let page := query.page.getD 1
  let limit := query.limit.getD 10
  let filter := buildQuery query
  match find eng collection filter query.sort (limit * 1) (((page : Int) - 1) * (limit : Int)) with
  | .error message => .error 500 message
  | .ok products =>
    match countDocuments eng collection filter with
    | .error message => .error 500 message
    | .ok count => .ok products (mathCeilDiv count limit) page

/-! ## Client: the cart store (`useCart`) -/

/-- A product as handed to `addToCart`.  Its `id` is absent (`undefined`) when the record
carries none; it may already carry a `quantity` field. -/
structure Product (N : Type) where
  id : Option String
  name : String
  price : N
  quantity : Option N
deriving DecidableEq, Repr

/-- An entry of the cart: the product's fields and a quantity. -/
structure CartItem (N : Type) where
  id : Option String
  name : String
  price : N
  quantity : N
deriving DecidableEq, Repr

/-- The state of the store. -/
structure CartStore (N : Type) where
  cart : List (CartItem N)
deriving DecidableEq, Repr

namespace CartStore

section Actions

variable {N : Type} [Add N] [Mul N] [OfNat N 0] [OfNat N 1]

/-- The initial state: `cart: []`. -/
def init : CartStore N := { cart := [] }

/-- The action `addToCart` (lines 115-130). -/
def addToCart (s : CartStore N) (product : Product N) : CartStore N :=
  let cart := s.cart
  match cart.find? (fun item => decide (item.id = product.id)) with
  | some _ =>
    { cart := cart.map (fun item =>
        if item.id = product.id then { item with quantity := item.quantity + 1 } else item) }
  | none =>
    { cart := cart ++
        [{ id := product.id, name := product.name, price := product.price, quantity := 1 }] }

/-- The action `removeFromCart` (lines 131-133). -/
def removeFromCart (s : CartStore N) (productId : Option String) : CartStore N :=
  { cart := s.cart.filter (fun item => decide (item.id ≠ productId)) }

/-- The action `clearCart` (line 134). -/
def clearCart (_s : CartStore N) : CartStore N := { cart := [] }

/-- The selector `total` (line 135): the value it returns, and the store it leaves. -/
def total (s : CartStore N) : N × CartStore N :=
  (s.cart.foldl (fun sum item => sum + item.price * item.quantity) 0, s)

/-- Well-formedness of a cart: no two entries with the same product id, every quantity at
least 1. -/
def WellFormed [LE N] (s : CartStore N) : Prop :=
  (s.cart.map fun item => item.id).Nodup ∧ ∀ item ∈ s.cart, 1 ≤ item.quantity

end Actions

end CartStore

/-- A call of one of the three state-changing actions of the store. -/
inductive CartAction (N : Type) where
  | addToCart (product : Product N)
  | removeFromCart (productId : Option String)
  | clearCart
deriving DecidableEq, Repr

/-- The store after one action. -/
def CartStore.step {N : Type} [Add N] [OfNat N 1] (s : CartStore N) : CartAction N → CartStore N
  | .addToCart product => s.addToCart product
  | .removeFromCart productId => s.removeFromCart productId
  | .clearCart => s.clearCart

/-- The store after a sequence of actions, first to last. -/
def CartStore.run {N : Type} [Add N] [OfNat N 1] (s : CartStore N) (actions : List (CartAction N)) :
    CartStore N :=
  actions.foldl CartStore.step s

/-! ## Client: the checkout form (`handleSubmit`) -/

/-- What the order service resolves with: `response.data` of `POST /orders`. -/
structure CreateOrderResult (N : Type) where
  order : Order N
  clientSecret : String
deriving DecidableEq, Repr

/-- The `error` object of a payment confirmation that did not go through. -/
structure StripeError where
  code : String
  message : String
deriving DecidableEq, Repr

/-- What `stripe.confirmCardPayment` resolves with. -/
structure ConfirmResult where
  error : Option StripeError
deriving DecidableEq, Repr

/-- The order service `createOrder` of the client: given the cart sent as `items`, resolves or
rejects with a message. -/
abbrev OrderService (N : Type) := List (CartItem N) → Except String (CreateOrderResult N)

/-- The call `stripe.confirmCardPayment`: given the client secret, resolves or rejects. -/
abbrev Confirmation := String → Except String ConfirmResult

/-- The state the checkout form reads and writes: the cart of the store, and its own
`loading` and `error`. -/
structure CheckoutState (N : Type) where
  store : CartStore N
  loading : Bool
  error : Option String
deriving DecidableEq, Repr

/-- The handler `handleSubmit` (lines 57-86), run to completion. -/
def handleSubmit {N : Type} (createOrderSvc : OrderService N)
    (confirmCardPayment : Confirmation) (s : CheckoutState N) : CheckoutState N :=
  let s1 := { s with loading := true }
  let s2 :=
    match createOrderSvc s1.store.cart with
    | .error message => { s1 with error := some message }
    | .ok result =>
      match confirmCardPayment result.clientSecret with
      | .error message => { s1 with error := some message }
      | .ok confirmation =>
        match confirmation.error with
        | some stripeError => { s1 with error := some stripeError.message }
        | none => { s1 with store := s1.store.clearCart }
  { s2 with loading := false }

/-! ## Sample collaborators and requests -/

/-- A gateway that creates every intent it is asked for. -/
def acceptingGateway {N : Type} : Gateway N :=
  fun _ => .ok { id := "pi_1", client_secret := "pi_1_secret" }

/-- A gateway whose call fails. -/
def failingGateway {N : Type} : Gateway N :=
  fun _ => .error "gateway unavailable"

/-- A store that accepts every document. -/
def acceptingStore {N : Type} : Store N :=
  fun _ => .ok "order_1"

/-- A store that is unavailable. -/
def failingStore {N : Type} : Store N :=
  fun _ => .error "store unavailable"

/-- An address to ship to. -/
def sampleAddress : ShippingAddress :=
  { street := "1 Main St", city := "Springfield", state := "IL", country := "US",
    zipCode := "62701" }

/-- The scenario of the specification: two units of product A at 10, paid by card. -/
def scenarioBody {N : Type} [OfNat N 2] [OfNat N 10] : OrderBody N :=
  { items := [{ product := "A", quantity := 2, price := 10 }]
    shippingAddress := sampleAddress
    paymentMethod := "card"
    totalAmount := none }

/-- A request without items. -/
def emptyBody : OrderBody F64 :=
  { items := [], shippingAddress := sampleAddress, paymentMethod := "card", totalAmount := none }

/-- A request with a line of negative quantity. -/
def negativeBody : OrderBody F64 :=
  { items := [{ product := "A", quantity := 3, price := 10 },
              { product := "B", quantity := F64.ofFrac (-1) 1, price := 5 }]
    shippingAddress := sampleAddress
    paymentMethod := "card"
    totalAmount := none }

/-- One unit of a product priced 19.99, as the JSON body `{"price": 19.99, "quantity": 1}` is
read: the price is the binary64 value nearest to 1999/100. -/
def decimalBody : OrderBody F64 :=
  { items := [{ product := "A", quantity := 1, price := F64.ofFrac 1999 100 }]
    shippingAddress := sampleAddress
    paymentMethod := "card"
    totalAmount := none }

/-- The same request with exact arithmetic. -/
def decimalBodyExact : OrderBody ℚ :=
  { items := [{ product := "A", quantity := 1, price := 1999 / 100 }]
    shippingAddress := sampleAddress
    paymentMethod := "card"
    totalAmount := none }

/-- One unit of a product priced 0.1 and one unit of a product priced 0.2, as the JSON body is
read: the prices are the binary64 values nearest to 1/10 and to 2/10. -/
def tenthsBody : OrderBody F64 :=
  { items := [{ product := "A", quantity := 1, price := F64.ofFrac 1 10 },
              { product := "B", quantity := 1, price := F64.ofFrac 2 10 }]
    shippingAddress := sampleAddress
    paymentMethod := "card"
    totalAmount := none }

/-- A database engine for the samples.  It rejects the pattern "(" the way the database does,
and searches any other pattern as a plain substring, whatever the case; it accepts every sort
argument and keeps the order of the collection. -/
def sampleEngine : Engine :=
  { regex := fun pattern =>
      if pattern = "(" then .error "Regular expression is invalid: missing closing parenthesis"
      else .ok (fun text => decide (1 < (text.toLower.splitOn pattern.toLower).length))
    sortOrder := fun _ => .ok none
    negativeSkip := "skip must be non-negative" }

/-- A catalogue of three products. -/
def sampleCatalogue : List ProductRecord :=
  [{ _id := "1", name := "Anvil", description := "heavy", price := 10, category := "tools",
     stock := 3 },
   { _id := "2", name := "Bucket", description := "round", price := 5, category := "tools",
     stock := 7 },
   { _id := "3", name := "Candle", description := "bright", price := 2, category := "home",
     stock := 9 }]

/-- The third page of the whole catalogue, two products a page. -/
def thirdPage : ListQuery :=
  { category := none, search := none, sort := none, page := some 3, limit := some 2 }

/-- The first page of the products found for the search text "(". -/
def parenSearch : ListQuery :=
  { category := none, search := some "(", sort := none, page := some 1, limit := some 10 }

/-- An order service that accepts every cart. -/
def acceptingService {N : Type} [Add N] [Mul N] [OfNat N 0] : OrderService N :=
  fun items =>
    .ok { order := storedOrder "order_1"
            (orderDocument "u1"
              { items := items.map fun item => ⟨item.name, item.quantity, item.price⟩
                shippingAddress := sampleAddress
                paymentMethod := "card"
                totalAmount := none }
              { id := "pi_1", client_secret := "pi_1_secret" })
          clientSecret := "pi_1_secret" }

/-- A confirmation that resolves with a declined card. -/
def decliningConfirmation : Confirmation :=
  fun _ => .ok { error := some { code := "card_declined", message := "Your card was declined." } }

/-- A cart holding two units of product A at 10. -/
def sampleCart : CartStore F64 :=
  { cart := [{ id := some "A", name := "Anvil", price := 10, quantity := 2 }] }

/-- A cart holding product A and product B. -/
def twoItemCart : CartStore F64 :=
  { cart := [{ id := some "A", name := "Anvil", price := 10, quantity := 2 },
             { id := some "B", name := "Bucket", price := 5, quantity := 1 }] }

/-- A cart holding one unit at 0.1 and one unit at 0.2. -/
def tenthsCart : CartStore F64 :=
  { cart := [{ id := some "A", name := "Anvil", price := F64.ofFrac 1 10, quantity := 1 },
             { id := some "B", name := "Bucket", price := F64.ofFrac 2 10, quantity := 1 }] }

/-- A cart whose only entry has the quantity `2^53`, as a stored cart may hold it. -/
def bigCart : CartStore F64 :=
  { cart := [{ id := some "A", name := "Anvil", price := 10, quantity := 9007199254740992 }] }

/-- Product A as listed in the catalogue. -/
def productA : Product F64 := { id := some "A", name := "Anvil", price := 10, quantity := none }

/-- Product B as listed in the catalogue. -/
def productB : Product F64 := { id := some "B", name := "Bucket", price := 5, quantity := none }

/-! ## The binary64 model: whole numbers and known values -/

/-- With enough fuel the halving count brackets `n` between two powers of two. -/
theorem ilog2Aux_spec (fuel n : Nat) (h1 : 1 ≤ n) (hf : n ≤ fuel) :
    2 ^ ilog2Aux fuel n ≤ n ∧ n < 2 ^ (ilog2Aux fuel n + 1) := by
  induction fuel generalizing n with
  | zero => omega
  | succ fuel ih =>
    unfold ilog2Aux
    by_cases h2 : n < 2
    · simp only [h2, if_true]
      omega
    · simp only [h2, if_false]
      have := ih (n / 2) (by omega) (by omega)
      rw [pow_succ] at this
      rw [pow_succ, pow_succ]
      omega

/-- The logarithm brackets `n`: `2^(ilog2 n) ≤ n < 2^(ilog2 n + 1)`. -/
theorem ilog2_spec (n : Nat) (h1 : 1 ≤ n) : 2 ^ ilog2 n ≤ n ∧ n < 2 ^ (ilog2 n + 1) :=
  ilog2Aux_spec n n h1 (le_refl n)

/-- One step of `stripTwos`. -/
theorem stripTwos_succ (fuel m : Nat) (e : Int) :
    stripTwos (fuel + 1) m e =
      if m ≠ 0 ∧ m % 2 = 0 then stripTwos fuel (m / 2) (e + 1) else (m, e) := rfl

/-- Stripping factors of two raises the exponent and keeps the value. -/
theorem stripTwos_value (fuel m : Nat) (e : Int) :
    e ≤ (stripTwos fuel m e).2 ∧
      (stripTwos fuel m e).1 * 2 ^ ((stripTwos fuel m e).2 - e).toNat = m := by
  induction fuel generalizing m e with
  | zero => simp [stripTwos]
  | succ fuel ih =>
    rw [stripTwos_succ]
    by_cases h : m ≠ 0 ∧ m % 2 = 0
    · rw [if_pos h]
      obtain ⟨h1, h2⟩ := ih (m / 2) (e + 1)
      refine ⟨by omega, ?_⟩
      have he : ((stripTwos fuel (m / 2) (e + 1)).2 - e).toNat =
          ((stripTwos fuel (m / 2) (e + 1)).2 - (e + 1)).toNat + 1 := by omega
      rw [he, pow_succ, ← mul_assoc, h2]
      omega
    · rw [if_neg h]
      simp

/-- With enough fuel, the factors `2^j` of a significand are stripped. -/
theorem stripTwos_mul_pow (j fuel m : Nat) (e : Int) (hm : m ≠ 0) :
    stripTwos (fuel + j) (m * 2 ^ j) e = stripTwos fuel m (e + j) := by
  induction j generalizing e with
  | zero => simp
  | succ j ih =>
    have hne : m * 2 ^ (j + 1) ≠ 0 := by positivity
    have hev : m * 2 ^ (j + 1) % 2 = 0 := by
      rw [pow_succ, ← mul_assoc]
      exact Nat.mul_mod_left _ _
    have hdiv : m * 2 ^ (j + 1) / 2 = m * 2 ^ j := by
      rw [pow_succ, ← mul_assoc]
      exact Nat.mul_div_cancel _ (by norm_num)
    rw [← Nat.add_assoc, stripTwos_succ, if_pos ⟨hne, hev⟩, hdiv, ih]
    congr 1
    push_cast
    ring

/-- The logarithm of 1. -/
theorem ilog2_one : ilog2 1 = 0 := rfl

/-- A whole number below `2^53` is rounded to itself. -/
theorem roundPos_whole (p : Nat) (h0 : 0 < p) (h : p < 2 ^ 53) :
    ilog2 p ≤ 52 ∧ roundPos p 1 = (p * 2 ^ (52 - ilog2 p), (ilog2 p : Int) - 52) := by
  obtain ⟨hlo, hhi⟩ := ilog2_spec p h0
  have hk : ilog2 p ≤ 52 := by
    by_contra hc
    have : 2 ^ 53 ≤ 2 ^ ilog2 p := Nat.pow_le_pow_right (by norm_num) (by omega)
    omega
  refine ⟨hk, ?_⟩
  unfold roundPos
  simp only [ilog2_one, Nat.cast_zero, sub_zero, Nat.cast_nonneg, if_true, Int.toNat_ofNat,
    one_mul, hlo, decide_True]
  have hs : max ((ilog2 p : Int) - 52) (-1074) = (ilog2 p : Int) - 52 := by
    apply max_eq_left
    omega
  rw [hs]
  by_cases hlt : (ilog2 p : Int) - 52 < 0
  · have hexp : (-((ilog2 p : Int) - 52)).toNat = 52 - ilog2 p := by omega
    simp [hlt, hexp, Nat.mod_one]
  · have hk52 : ilog2 p = 52 := by omega
    simp [hk52, Nat.mod_one]

/-- A whole number below `2^53` is a binary64 value: its model has that numerator and the
denominator 1. -/
theorem ofFrac_whole (n : Nat) (h : n < 2 ^ 53) :
    (F64.ofFrac (n : Int) 1).num = (n : Int) ∧ (F64.ofFrac (n : Int) 1).den = 1 := by
  by_cases h0 : n = 0
  · subst h0
    decide
  · have hpos : 0 < n := Nat.pos_of_ne_zero h0
    obtain ⟨hk, hr⟩ := roundPos_whole n hpos h
    have hfuel : (64 : Nat) = (12 + ilog2 n) + (52 - ilog2 n) := by omega
    have hstrip : stripTwos 64 (n * 2 ^ (52 - ilog2 n)) ((ilog2 n : Int) - 52) =
        stripTwos (12 + ilog2 n) n 0 := by
      rw [hfuel, stripTwos_mul_pow _ _ _ _ h0]
      congr 1
      omega
    obtain ⟨hge, hval⟩ := stripTwos_value (12 + ilog2 n) n 0
    have hc1 : (stripTwos (12 + ilog2 n) n 0).1 ≠ 0 := by
      intro hz
      rw [hz] at hval
      omega
    have hcast : ((n : Int) = 0 ∨ (1 : Nat) = 0) = False := by simp [h0]
    unfold F64.ofFrac
    simp only [hcast, if_false, Int.natAbs_ofNat, hr, hstrip, hc1]
    have hnn : ¬ ((n : Int) < 0) := by omega
    simp only [hnn, if_false, one_mul, F64.num, F64.den, hge, if_true]
    refine ⟨?_, trivial⟩
    have : ((stripTwos (12 + ilog2 n) n 0).2 - 0).toNat = (stripTwos (12 + ilog2 n) n 0).2.toNat := by
      simp
    rw [this] at hval
    exact_mod_cast hval

/-- On whole numbers below `2^53`, binary64 addition is the rounding of the sum. -/
theorem add_whole (a b : Nat) (ha : a < 2 ^ 53) (hb : b < 2 ^ 53) :
    F64.ofFrac (a : Int) 1 + F64.ofFrac (b : Int) 1 = F64.ofFrac ((a + b : Nat) : Int) 1 := by
  show F64.add _ _ = _
  unfold F64.add
  rw [(ofFrac_whole a ha).1, (ofFrac_whole a ha).2, (ofFrac_whole b hb).1, (ofFrac_whole b hb).2]
  simp

/-- On whole numbers below `2^53`, binary64 multiplication is the rounding of the product. -/
theorem mul_whole (a b : Nat) (ha : a < 2 ^ 53) (hb : b < 2 ^ 53) :
    F64.ofFrac (a : Int) 1 * F64.ofFrac (b : Int) 1 = F64.ofFrac ((a * b : Nat) : Int) 1 := by
  show F64.mul _ _ = _
  unfold F64.mul
  rw [(ofFrac_whole a ha).1, (ofFrac_whole a ha).2, (ofFrac_whole b hb).1, (ofFrac_whole b hb).2]
  simp

/-- The exact value of the model of a whole number below `2^53` is that number. -/
theorem toRat_whole (n : Nat) (h : n < 2 ^ 53) : F64.toRat (F64.ofFrac (n : Int) 1) = (n : ℚ) := by
  unfold F64.toRat
  rw [(ofFrac_whole n h).1, (ofFrac_whole n h).2]
  simp

/-- The whole values are the models of the whole numbers below `2^53`. -/
theorem isWhole_iff (x : F64) : x.IsWhole ↔ ∃ n : Nat, n < 2 ^ 53 ∧ x = F64.ofFrac (n : Int) 1 := by
  constructor
  · intro h
    exact ⟨x.num.toNat, h.1, h.2⟩
  · rintro ⟨n, hn, rfl⟩
    have hnum := (ofFrac_whole n hn).1
    have : (F64.ofFrac (n : Int) 1).num.toNat = n := by
      rw [hnum]
      exact Int.toNat_ofNat n
    exact ⟨by rw [this]; exact hn, by rw [this]⟩

/-- The exact value of a whole value. -/
theorem toRat_of_isWhole (x : F64) (h : x.IsWhole) : x.toRat = (x.num.toNat : ℚ) := by
  have := toRat_whole x.num.toNat h.1
  rw [← h.2] at this
  exact this

/-- Accumulating `price * quantity` over whole prices and quantities does not round as long
as the exact sum stays below `2^53`. -/
theorem foldl_whole {α : Type} (price quantity : α → F64) (l : List α) (a : Nat)
    (hw : ∀ i ∈ l, (price i).IsWhole ∧ (quantity i).IsWhole)
    (hsum : a + (l.map fun i => (price i).num.toNat * (quantity i).num.toNat).sum < 2 ^ 53) :
    l.foldl (fun sum i => sum + price i * quantity i) (F64.ofFrac (a : Int) 1) =
      F64.ofFrac
        ((a + (l.map fun i => (price i).num.toNat * (quantity i).num.toNat).sum : Nat) : Int) 1
    := by
  induction l generalizing a with
  | nil => simp
  | cons i rest ih =>
    simp only [List.map_cons, List.sum_cons] at hsum
    obtain ⟨hp, hq⟩ := hw i (List.mem_cons_self i rest)
    have hrest : ∀ j ∈ rest, (price j).IsWhole ∧ (quantity j).IsWhole :=
      fun j hj => hw j (List.mem_cons_of_mem i hj)
    have hprod : price i * quantity i =
        F64.ofFrac (((price i).num.toNat * (quantity i).num.toNat : Nat) : Int) 1 := by
      conv_lhs => rw [hp.2, hq.2]
      exact mul_whole _ _ hp.1 hq.1
    have hstep : F64.ofFrac (a : Int) 1 + price i * quantity i =
        F64.ofFrac ((a + (price i).num.toNat * (quantity i).num.toNat : Nat) : Int) 1 := by
      rw [hprod]
      exact add_whole _ _ (by omega) (by omega)
    simp only [List.foldl_cons, List.map_cons, List.sum_cons, hstep]
    rw [ih _ hrest (by omega)]
    congr 2
    omega

/-- The model agrees with the binary64 results of `0.1 + 0.2` (which is not the binary64 value
of `0.3`), of `1.1 * 1.1`, of `19.99 * 100` and of `10 * 2 * 100`, and with the subnormal value
of `1e-320`. -/
theorem F64_known_values :
    F64.ofFrac 1 10 + F64.ofFrac 2 10 = ⟨1351079888211149, -52⟩ ∧
    F64.ofFrac 3 10 = ⟨5404319552844595, -54⟩ ∧
    F64.ofFrac 11 10 * F64.ofFrac 11 10 = ⟨5449355549118301, -52⟩ ∧
    F64.ofFrac 1999 100 * (100 : F64) = ⟨8791694975696895, -42⟩ ∧
    (10 : F64) * (2 : F64) * (100 : F64) = 2000 ∧
    F64.ofFrac 1 (10 ^ 320) = ⟨253, -1071⟩ := by
  set_option maxRecDepth 100000 in
  set_option exponentiation.threshold 2000 in
  decide


/-- The exact sum of the line amounts of whole prices and quantities. -/
theorem sum_toRat_whole {α : Type} (price quantity : α → F64) (l : List α)
    (hw : ∀ i ∈ l, (price i).IsWhole ∧ (quantity i).IsWhole) :
    (l.map fun i => (price i).toRat * (quantity i).toRat).sum =
      (((l.map fun i => (price i).num.toNat * (quantity i).num.toNat).sum : Nat) : ℚ) := by
  induction l with
  | nil => simp
  | cons i rest ih =>
    obtain ⟨hp, hq⟩ := hw i (List.mem_cons_self i rest)
    have hrest : ∀ j ∈ rest, (price j).IsWhole ∧ (quantity j).IsWhole :=
      fun j hj => hw j (List.mem_cons_of_mem i hj)
    simp only [List.map_cons, List.sum_cons, ih hrest, toRat_of_isWhole _ hp,
      toRat_of_isWhole _ hq]
    push_cast
    ring

/-- Accumulated from 0 over whole prices and quantities whose exact sum is below `2^53`, the
binary64 total is the exact sum. -/
theorem foldl_whole_exact {α : Type} (price quantity : α → F64) (l : List α)
    (hw : ∀ i ∈ l, (price i).IsWhole ∧ (quantity i).IsWhole)
    (hsum : (l.map fun i => (price i).num.toNat * (quantity i).num.toNat).sum < 2 ^ 53) :
    (l.foldl (fun sum i => sum + price i * quantity i) (0 : F64)).toRat =
      (l.map fun i => (price i).toRat * (quantity i).toRat).sum := by
  have h0 : (0 : F64) = F64.ofFrac ((0 : Nat) : Int) 1 := rfl
  rw [h0, foldl_whole price quantity l 0 hw (by omega), sum_toRat_whole price quantity l hw,
    Nat.zero_add]
  exact toRat_whole _ hsum

/-! ## Properties of `createOrder` -/

/-- With exact arithmetic the reduction started at `a` adds the sum of the line amounts to `a`. -/
theorem foldl_lineAmounts (items : List (OrderItem ℚ)) (a : ℚ) :
    items.foldl (fun sum item => sum + (item.price * item.quantity)) a =
      a + (items.map fun item => item.price * item.quantity).sum := by
  induction items generalizing a with
  | nil => simp
  | cons item rest ih => simp [List.foldl_cons, ih, add_assoc]
/-- With exact arithmetic `orderTotal` is the sum over the items of price times quantity. -/
theorem orderTotal_eq_sum (items : List (OrderItem ℚ)) :
    orderTotal items = (items.map fun item => item.price * item.quantity).sum := by
  simp [orderTotal, foldl_lineAmounts]

/-- The run of `createOrder` when the gateway and the store both resolve. -/
theorem createOrder_of_success {N : Type} [Add N] [Mul N] [OfNat N 0] [OfNat N 100]
    (stripe : Gateway N) (db : Store N) (user : String) (body : OrderBody N)
    (intent : PaymentIntent) (id : String)
    (hgw : stripe (paymentIntentParams body) = .ok intent)
    (hdb : db (orderDocument user body intent) = .ok id) :
    createOrder stripe db user body =
      (⟨201, .created (storedOrder id (orderDocument user body intent)) intent.client_secret⟩,
        { intentRequests := [paymentIntentParams body], intentsCreated := [intent],
          createCalls := [orderDocument user body intent],
          persisted := [storedOrder id (orderDocument user body intent)] }) := by
  simp only [createOrder, hgw, Order.create, hdb]

/-- The run of `createOrder` when the gateway resolves and the store rejects. -/
theorem createOrder_of_store_failure {N : Type} [Add N] [Mul N] [OfNat N 0] [OfNat N 100]
    (stripe : Gateway N) (db : Store N) (user : String) (body : OrderBody N)
    (intent : PaymentIntent) (message : String)
    (hgw : stripe (paymentIntentParams body) = .ok intent)
    (hdb : db (orderDocument user body intent) = .error message) :
    createOrder stripe db user body =
      (⟨500, .error message⟩,
        { intentRequests := [paymentIntentParams body], intentsCreated := [intent],
          createCalls := [orderDocument user body intent], persisted := [] }) := by
  simp only [createOrder, hgw, Order.create, hdb]

/-- The total that the client put in the body is never read. -/
theorem createOrder_ignores_client_total {N : Type} [Add N] [Mul N] [OfNat N 0] [OfNat N 100]
    (stripe : Gateway N) (db : Store N) (user : String) (body : OrderBody N) (t : Option N) :
    createOrder stripe db user { body with totalAmount := t } =
      createOrder stripe db user body := rfl

/-- Counterexample to C1: for one unit at 0.1 and one unit at 0.2 (a non-empty request without
negative numbers, accepted by the gateway and by the store) the `totalAmount` persisted and
returned is the binary64 value `1351079888211149 / 2^52` (printed `0.30000000000000004`), which is
neither the exact sum of the prices received times their quantities nor 3/10. -/
theorem createOrder_total_rounds_binary64 :
    tenthsBody.items ≠ [] ∧
    (∀ item ∈ tenthsBody.items, 0 ≤ item.price ∧ 0 ≤ item.quantity) ∧
    (createOrder acceptingGateway acceptingStore "u1" tenthsBody).1 =
      ⟨201, .created
        { _id := "order_1", user := "u1", items := tenthsBody.items,
          totalAmount := ⟨1351079888211149, -52⟩, shippingAddress := sampleAddress,
          paymentStatus := .pending, orderStatus := .processing, paymentMethod := "card" }
        "pi_1_secret"⟩ ∧
    (createOrder acceptingGateway acceptingStore "u1" tenthsBody).2.persisted.map
        (fun order => order.totalAmount) = [⟨1351079888211149, -52⟩] ∧
    F64.toRat ⟨1351079888211149, -52⟩ ≠
      (tenthsBody.items.map fun item => item.price.toRat * item.quantity.toRat).sum ∧
    F64.toRat ⟨1351079888211149, -52⟩ ≠ 3 / 10 := by
  have hitems : tenthsBody.items =
      [{ product := "A", quantity := ⟨1, 0⟩, price := ⟨3602879701896397, -55⟩ },
       { product := "B", quantity := ⟨1, 0⟩, price := ⟨3602879701896397, -54⟩ }] := by
    decide
  refine ⟨by decide, by decide, ?_, ?_, ?_, ?_⟩
  · set_option maxRecDepth 100000 in
    decide
  · set_option maxRecDepth 100000 in
    decide
  · rw [hitems]
    norm_num [F64.toRat, F64.num, F64.den, Int.toNat]
  · norm_num [F64.toRat, F64.num, F64.den, Int.toNat]

/-- C1, amended: for a non-empty item list with non-negative prices and quantities, when the
gateway and the store both succeed, `createOrder` answers 201 with the Order it persisted, whose
`totalAmount` comes from the items alone: it is the accumulation, from 0 and from left to
right, of price times quantity in the arithmetic of the engine, and a total supplied by the
client in the body changes nothing.  In binary64 that accumulation is the exact sum when the
prices and quantities are whole numbers below `2^53` whose exact sum is below `2^53`. -/
theorem createOrder_totalAmount_from_items {N : Type} [Add N] [Mul N] [OfNat N 0] [OfNat N 100]
    [LE N] (stripe : Gateway N) (db : Store N)
    (user : String) (body : OrderBody N) (intent : PaymentIntent) (id : String)
    (_hne : body.items ≠ [])
    (_hprice : ∀ item ∈ body.items, 0 ≤ item.price)
    (_hqty : ∀ item ∈ body.items, 0 ≤ item.quantity)
    (hgw : stripe (paymentIntentParams body) = .ok intent)
    (hdb : db (orderDocument user body intent) = .ok id) :
    (∃ order : Order N,
      (createOrder stripe db user body).1 = ⟨201, .created order intent.client_secret⟩ ∧
      (createOrder stripe db user body).2.persisted = [order] ∧
      order.totalAmount =
        body.items.foldl (fun sum item => sum + item.price * item.quantity) 0 ∧
      ∀ t : Option N,
        createOrder stripe db user { body with totalAmount := t } =
          createOrder stripe db user body) ∧
    ∀ items : List (OrderItem F64),
      (∀ item ∈ items, item.price.IsWhole ∧ item.quantity.IsWhole) →
      (items.map fun item => item.price.num.toNat * item.quantity.num.toNat).sum < 2 ^ 53 →
      (items.foldl (fun sum item => sum + item.price * item.quantity) (0 : F64)).toRat =
        (items.map fun item => item.price.toRat * item.quantity.toRat).sum := by
  refine ⟨⟨storedOrder id (orderDocument user body intent), ?_, ?_, rfl,
    fun t => createOrder_ignores_client_total stripe db user body t⟩, ?_⟩
  · rw [createOrder_of_success stripe db user body intent id hgw hdb]
  · rw [createOrder_of_success stripe db user body intent id hgw hdb]
  · intro items hw hsum
    exact foldl_whole_exact (fun item : OrderItem F64 => item.price)
      (fun item => item.quantity) items hw hsum

/-- Witness of the amended C1: the scenario request in binary64, accepted by the gateway and by
the store; its total is exactly 10 times 2. -/
theorem createOrder_totalAmount_from_items_witness :
    (∃ order : Order F64,
      (createOrder acceptingGateway acceptingStore "u1" (scenarioBody : OrderBody F64)).1 =
        ⟨201, .created order "pi_1_secret"⟩ ∧
      (createOrder acceptingGateway acceptingStore "u1" (scenarioBody : OrderBody F64)).2.persisted
        = [order] ∧
      order.totalAmount =
        (scenarioBody : OrderBody F64).items.foldl
          (fun sum item => sum + item.price * item.quantity) 0 ∧
      ∀ t : Option F64,
        createOrder acceptingGateway acceptingStore "u1"
            { (scenarioBody : OrderBody F64) with totalAmount := t } =
          createOrder acceptingGateway acceptingStore "u1" (scenarioBody : OrderBody F64)) ∧
    ((scenarioBody : OrderBody F64).items.foldl
        (fun sum item => sum + item.price * item.quantity) (0 : F64)).toRat =
      ((scenarioBody : OrderBody F64).items.map
        fun item => item.price.toRat * item.quantity.toRat).sum :=
  ⟨(createOrder_totalAmount_from_items acceptingGateway acceptingStore "u1" scenarioBody
      { id := "pi_1", client_secret := "pi_1_secret" } "order_1"
      (by decide) (by decide) (by decide) rfl rfl).1,
   (createOrder_totalAmount_from_items acceptingGateway acceptingStore "u1"
      (scenarioBody : OrderBody F64)
      { id := "pi_1", client_secret := "pi_1_secret" } "order_1"
      (by decide) (by decide) (by decide) rfl rfl).2 _ (by decide) (by decide)⟩

/-- Counterexample to C2: a request without items is not rejected: the gateway is asked for an
intent (of amount 0), also when it then fails, and, the gateway and the store accepting, an
Order is persisted and the answer is 201; the same happens for a request with a line of
quantity -1. -/
theorem createOrder_accepts_invalid_items :
    emptyBody.items = [] ∧
    (createOrder acceptingGateway acceptingStore "u1" emptyBody).1.status = 201 ∧
    (createOrder acceptingGateway acceptingStore "u1" emptyBody).2.intentRequests =
      [{ amount := 0, currency := "usd" }] ∧
    (createOrder acceptingGateway acceptingStore "u1" emptyBody).2.persisted.length = 1 ∧
    (createOrder failingGateway acceptingStore "u1" emptyBody).2.intentRequests.length = 1 ∧
    (∃ item ∈ negativeBody.items, item.quantity < 0) ∧
    (createOrder acceptingGateway acceptingStore "u1" negativeBody).1.status = 201 ∧
    (createOrder acceptingGateway acceptingStore "u1" negativeBody).2.intentRequests =
      [{ amount := 2500, currency := "usd" }] ∧
    (createOrder acceptingGateway acceptingStore "u1" negativeBody).2.persisted.length = 1 := by
  decide

/-- C2, amended: `createOrder` does not reject a request whose items are empty, or have a line
with a negative price or quantity: it asks the gateway for a payment intent, and when the
gateway and the store accept, the Order is persisted and the answer is 201. -/
theorem createOrder_validates_nothing {N : Type} [Add N] [Mul N] [OfNat N 0] [OfNat N 100]
    [LT N] (stripe : Gateway N) (db : Store N) (user : String)
    (body : OrderBody N) (intent : PaymentIntent) (id : String)
    (_hinvalid : body.items = [] ∨ ∃ item ∈ body.items, item.price < 0 ∨ item.quantity < 0)
    (hgw : stripe (paymentIntentParams body) = .ok intent)
    (hdb : db (orderDocument user body intent) = .ok id) :
    (createOrder stripe db user body).1 =
      ⟨201, .created (storedOrder id (orderDocument user body intent)) intent.client_secret⟩ ∧
    (createOrder stripe db user body).2.intentRequests = [paymentIntentParams body] ∧
    (createOrder stripe db user body).2.persisted =
      [storedOrder id (orderDocument user body intent)] := by
  rw [createOrder_of_success stripe db user body intent id hgw hdb]
  exact ⟨rfl, rfl, rfl⟩

/-- Witness of the amended C2, at the request with a line of negative quantity. -/
theorem createOrder_validates_nothing_witness :
    (createOrder acceptingGateway acceptingStore "u1" negativeBody).1 =
      ⟨201, .created
        (storedOrder "order_1"
          (orderDocument "u1" negativeBody { id := "pi_1", client_secret := "pi_1_secret" }))
        "pi_1_secret"⟩ ∧
    (createOrder acceptingGateway acceptingStore "u1" negativeBody).2.intentRequests =
      [paymentIntentParams negativeBody] ∧
    (createOrder acceptingGateway acceptingStore "u1" negativeBody).2.persisted =
      [storedOrder "order_1"
        (orderDocument "u1" negativeBody { id := "pi_1", client_secret := "pi_1_secret" })] :=
  createOrder_validates_nothing acceptingGateway acceptingStore "u1" negativeBody
    { id := "pi_1", client_secret := "pi_1_secret" } "order_1"
    (Or.inr ⟨{ product := "B", quantity := F64.ofFrac (-1) 1, price := 5 }, by decide,
      Or.inr (by decide)⟩)
    rfl rfl

/-- Every run of `createOrder` asks the gateway for exactly one intent, of 100 times the total
in "usd". -/
theorem createOrder_intentRequests {N : Type} [Add N] [Mul N] [OfNat N 0] [OfNat N 100]
    (stripe : Gateway N) (db : Store N) (user : String) (body : OrderBody N) :
    (createOrder stripe db user body).2.intentRequests =
      [{ amount := orderTotal body.items * 100, currency := "usd" }] := by
  cases hgw : stripe (paymentIntentParams body) with
  | error message =>
    simp only [createOrder, hgw]
    rfl
  | ok intent =>
    cases hdb : db (orderDocument user body intent) with
    | error message =>
      rw [createOrder_of_store_failure stripe db user body intent message hgw hdb]
      rfl
    | ok id =>
      rw [createOrder_of_success stripe db user body intent id hgw hdb]
      rfl

/-- With exact arithmetic the intent asked for has currency "usd" and an amount of exactly 100
times the sum of price times quantity, whatever the request. -/
theorem createOrder_intent_exact (stripe : Gateway ℚ) (db : Store ℚ) (user : String)
    (body : OrderBody ℚ) :
    (createOrder stripe db user body).2.intentRequests =
      [{ amount := (body.items.map fun item => item.price * item.quantity).sum * 100,
         currency := "usd" }] := by
  rw [createOrder_intentRequests, orderTotal_eq_sum]

/-- The scenario of the specification in binary64 arithmetic: total 20 and an intent of 2000
in "usd". -/
theorem createOrder_scenario_binary64 :
    (createOrder acceptingGateway acceptingStore "u1" (scenarioBody : OrderBody F64)).2.createCalls.map
        (fun doc => doc.totalAmount) = [20] ∧
    (createOrder acceptingGateway acceptingStore "u1" (scenarioBody : OrderBody F64)).2.intentRequests
      = [{ amount := 2000, currency := "usd" }] := by
  decide

/-- C3 at the request for one unit priced 19.99, in binary64 arithmetic: the total is the binary64
value of 19.99 and the amount asked of the gateway is `8791694975696895 / 2^42`, one unit in the
last place below 1999; it is not a whole number of cents.  With exact arithmetic the amount for
the same request is 1999. -/
theorem createOrder_amount_drifts_binary64 :
    (createOrder acceptingGateway acceptingStore "u1" decimalBody).2.createCalls.map
        (fun doc => doc.totalAmount) = [F64.ofFrac 1999 100] ∧
    (createOrder acceptingGateway acceptingStore "u1" decimalBody).2.intentRequests =
      [{ amount := ⟨8791694975696895, -42⟩, currency := "usd" }] ∧
    (⟨8791694975696895, -42⟩ : F64) ≠ 1999 ∧
    F64.toRat ⟨8791694975696895, -42⟩ = 1999 - 1 / 2 ^ 42 ∧
    (createOrder acceptingGateway acceptingStore "u1" decimalBodyExact).2.intentRequests =
      [{ amount := 1999, currency := "usd" }] := by
  refine ⟨by decide, by decide, by decide, ?_, ?_⟩
  · norm_num [F64.toRat, F64.num, F64.den, Int.toNat]
  · rw [createOrder_intent_exact]
    norm_num [decimalBodyExact]

/-- C4: when the gateway call fails, `createOrder` answers 500 with the failure's message,
`Order.create` is not called and nothing is persisted. -/
theorem createOrder_gateway_failure {N : Type} [Add N] [Mul N] [OfNat N 0] [OfNat N 100]
    (stripe : Gateway N) (db : Store N) (user : String) (body : OrderBody N) (message : String)
    (hgw : stripe (paymentIntentParams body) = .error message) :
    (createOrder stripe db user body).1 = ⟨500, .error message⟩ ∧
    (createOrder stripe db user body).2.createCalls = [] ∧
    (createOrder stripe db user body).2.persisted = [] ∧
    (createOrder stripe db user body).2.intentsCreated = [] := by
  simp only [createOrder, hgw, and_self]

/-- Witness of C4: the scenario request against a gateway that is unavailable. -/
theorem createOrder_gateway_failure_witness :
    (createOrder failingGateway acceptingStore "u1" (scenarioBody : OrderBody ℚ)).1 =
      ⟨500, .error "gateway unavailable"⟩ ∧
    (createOrder failingGateway acceptingStore "u1" (scenarioBody : OrderBody ℚ)).2.createCalls
      = [] ∧
    (createOrder failingGateway acceptingStore "u1" (scenarioBody : OrderBody ℚ)).2.persisted
      = [] ∧
    (createOrder failingGateway acceptingStore "u1" (scenarioBody : OrderBody ℚ)).2.intentsCreated
      = [] :=
  createOrder_gateway_failure failingGateway acceptingStore "u1" scenarioBody
    "gateway unavailable" rfl

/-- Counterexample to C5: the store being unavailable, no Order is persisted, yet the payment
intent has been created at the gateway before `Order.create` was called. -/
theorem createOrder_store_failure_leaves_intent :
    (createOrder acceptingGateway failingStore "u1" (scenarioBody : OrderBody ℚ)).1 =
      ⟨500, .error "store unavailable"⟩ ∧
    (createOrder acceptingGateway failingStore "u1" (scenarioBody : OrderBody ℚ)).2.persisted
      = [] ∧
    (createOrder acceptingGateway failingStore "u1" (scenarioBody : OrderBody ℚ)).2.intentsCreated
      = [{ id := "pi_1", client_secret := "pi_1_secret" }] ∧
    (createOrder acceptingGateway failingStore "u1" (scenarioBody : OrderBody ℚ)).2.intentsCreated
      ≠ [] := by
  refine ⟨rfl, rfl, rfl, ?_⟩
  intro h
  cases h

/-- C5, amended: when persisting the Order fails, `createOrder` answers 500 with the failure's
message and no Order is persisted; the payment intent the gateway created beforehand stays
created, and the gateway is not called again. -/
theorem createOrder_store_failure {N : Type} [Add N] [Mul N] [OfNat N 0] [OfNat N 100]
    (stripe : Gateway N) (db : Store N) (user : String) (body : OrderBody N)
    (intent : PaymentIntent) (message : String)
    (hgw : stripe (paymentIntentParams body) = .ok intent)
    (hdb : db (orderDocument user body intent) = .error message) :
    (createOrder stripe db user body).1 = ⟨500, .error message⟩ ∧
    (createOrder stripe db user body).2.persisted = [] ∧
    (createOrder stripe db user body).2.intentsCreated = [intent] ∧
    (createOrder stripe db user body).2.intentRequests = [paymentIntentParams body] := by
  rw [createOrder_of_store_failure stripe db user body intent message hgw hdb]
  exact ⟨rfl, rfl, rfl, rfl⟩

/-- Witness of the amended C5: the scenario request against a store that is unavailable. -/
theorem createOrder_store_failure_witness :
    (createOrder acceptingGateway failingStore "u1" (scenarioBody : OrderBody ℚ)).1 =
      ⟨500, .error "store unavailable"⟩ ∧
    (createOrder acceptingGateway failingStore "u1" (scenarioBody : OrderBody ℚ)).2.persisted
      = [] ∧
    (createOrder acceptingGateway failingStore "u1" (scenarioBody : OrderBody ℚ)).2.intentsCreated
      = [{ id := "pi_1", client_secret := "pi_1_secret" }] ∧
    (createOrder acceptingGateway failingStore "u1" (scenarioBody : OrderBody ℚ)).2.intentRequests
      = [paymentIntentParams scenarioBody] :=
  createOrder_store_failure acceptingGateway failingStore "u1" scenarioBody
    { id := "pi_1", client_secret := "pi_1_secret" } "store unavailable" rfl rfl

/-! ## Properties of the checkout form -/

/-- C6: `handleSubmit` empties the cart when the order service resolved and the confirmation
resolved without an error; when the order service rejects, the confirmation rejects, or the
confirmation resolves with an error, the store is left as it was and the failure's message
becomes the form's error.  These four cases are all the outcomes there are. -/
theorem handleSubmit_clears_only_on_success {N : Type} (createOrderSvc : OrderService N)
    (confirmCardPayment : Confirmation) (s : CheckoutState N) :
    (∀ result, createOrderSvc s.store.cart = .ok result →
      confirmCardPayment result.clientSecret = .ok { error := none } →
      (handleSubmit createOrderSvc confirmCardPayment s).store.cart = [] ∧
      (handleSubmit createOrderSvc confirmCardPayment s).error = s.error) ∧
    (∀ message, createOrderSvc s.store.cart = .error message →
      (handleSubmit createOrderSvc confirmCardPayment s).store = s.store ∧
      (handleSubmit createOrderSvc confirmCardPayment s).error = some message) ∧
    (∀ result message, createOrderSvc s.store.cart = .ok result →
      confirmCardPayment result.clientSecret = .error message →
      (handleSubmit createOrderSvc confirmCardPayment s).store = s.store ∧
      (handleSubmit createOrderSvc confirmCardPayment s).error = some message) ∧
    (∀ result stripeError, createOrderSvc s.store.cart = .ok result →
      confirmCardPayment result.clientSecret = .ok { error := some stripeError } →
      (handleSubmit createOrderSvc confirmCardPayment s).store = s.store ∧
      (handleSubmit createOrderSvc confirmCardPayment s).error = some stripeError.message) := by
  refine ⟨?_, ?_, ?_, ?_⟩
  · intro result h1 h2
    simp [handleSubmit, h1, h2, CartStore.clearCart]
  · intro message h1
    simp [handleSubmit, h1]
  · intro result message h1 h2
    simp [handleSubmit, h1, h2]
  · intro result stripeError h1 h2
    simp [handleSubmit, h1, h2]

/-- Witness of C6: the card is declined, the cart is kept and the decline is shown. -/
theorem handleSubmit_clears_only_on_success_witness :
    (handleSubmit acceptingService decliningConfirmation
        { store := sampleCart, loading := false, error := none }).store = sampleCart ∧
    (handleSubmit acceptingService decliningConfirmation
        { store := sampleCart, loading := false, error := none }).error =
      some "Your card was declined." :=
  (handleSubmit_clears_only_on_success acceptingService decliningConfirmation
      { store := sampleCart, loading := false, error := none }).2.2.2 _
    { code := "card_declined", message := "Your card was declined." } rfl rfl

/-! ## Properties of the cart store -/

/-- The branch of `addToCart` taken when an entry has the product's id. -/
theorem addToCart_of_mem {N : Type} [Add N] [OfNat N 1] (s : CartStore N) (p : Product N)
    (h : ∃ item ∈ s.cart, item.id = p.id) :
    (s.addToCart p).cart =
      s.cart.map (fun item =>
        if item.id = p.id then { item with quantity := item.quantity + 1 } else item) := by
  cases hf : s.cart.find? (fun item => decide (item.id = p.id)) with
  | some found => simp only [CartStore.addToCart, hf]
  | none =>
    exfalso
    obtain ⟨item, hmem, hid⟩ := h
    have := List.find?_eq_none.mp hf item hmem
    simp [hid] at this

/-- The branch of `addToCart` taken when no entry has the product's id. -/
theorem addToCart_of_not_mem {N : Type} [Add N] [OfNat N 1] (s : CartStore N) (p : Product N)
    (h : ∀ item ∈ s.cart, item.id ≠ p.id) :
    (s.addToCart p).cart =
      s.cart ++ [{ id := p.id, name := p.name, price := p.price, quantity := 1 }] := by
  cases hf : s.cart.find? (fun item => decide (item.id = p.id)) with
  | none => simp only [CartStore.addToCart, hf]
  | some found =>
    exfalso
    have hmem := List.mem_of_find?_eq_some hf
    have hid := List.find?_some hf
    exact h found hmem (by simpa using hid)

/-- Mapping the quantity bump over entries none of which has the id changes nothing. -/
theorem map_bump_of_forall_ne {N : Type} [Add N] [OfNat N 1] (l : List (CartItem N))
    (k : Option String) (h : ∀ item ∈ l, item.id ≠ k) :
    l.map (fun item => if item.id = k then { item with quantity := item.quantity + 1 } else item)
      = l := by
  induction l with
  | nil => rfl
  | cons a rest ih =>
    have ha : a.id ≠ k := h a (List.mem_cons_self a rest)
    have hrest : ∀ item ∈ rest, item.id ≠ k := fun item hi => h item (List.mem_cons_of_mem a hi)
    simp [ha, ih hrest]

/-- Counterexample to C7: in a cart with one entry per id, the entry of product A has the
quantity `2^53`; `addToCart` of product A leaves the cart as it is, the quantity being again
`2^53` and not `2^53 + 1`. -/
theorem addToCart_does_not_raise_at_2_pow_53 :
    (bigCart.cart.map fun item => item.id).Nodup ∧
    (∃ item ∈ bigCart.cart, item.id = productA.id) ∧
    (bigCart.addToCart productA).cart = bigCart.cart ∧
    (bigCart.addToCart productA).cart.map (fun item => item.quantity) = [⟨1, 53⟩] ∧
    F64.toRat ⟨1, 53⟩ = 2 ^ 53 ∧
    F64.toRat ⟨1, 53⟩ ≠ 2 ^ 53 + 1 := by
  refine ⟨by decide, by decide, by decide, by decide, ?_, ?_⟩
  · norm_num [F64.toRat, F64.num, F64.den, Int.toNat]
  · norm_num [F64.toRat, F64.num, F64.den, Int.toNat]

/-- C7, amended: on a cart with at most one entry per product id, `addToCart` either finds the
entry with the product's id, and then keeps the number of entries, replaces that entry's
quantity by the sum of it and 1 in the arithmetic of the engine and leaves every other entry as
it is and where it is, or finds none and appends one entry for the product with quantity 1
(whatever quantity the product carried); adding the same product twice to a cart without it
gives one entry, of quantity `1 + 1`.  In binary64 `1 + 1` is 2, and the sum of a whole quantity
`n` and 1 is `n + 1` as long as `n + 1 < 2^53`. -/
theorem addToCart_merges_or_appends {N : Type} [Add N] [OfNat N 1] (s : CartStore N)
    (p : Product N) (hnodup : (s.cart.map fun item => item.id).Nodup) :
    ((∃ item ∈ s.cart, item.id = p.id) →
      (s.addToCart p).cart.length = s.cart.length ∧
      ∃ before entry after, s.cart = before ++ entry :: after ∧ entry.id = p.id ∧
        (s.addToCart p).cart =
          before ++ { entry with quantity := entry.quantity + 1 } :: after) ∧
    ((∀ item ∈ s.cart, item.id ≠ p.id) →
      (s.addToCart p).cart =
        s.cart ++ [{ id := p.id, name := p.name, price := p.price, quantity := 1 }] ∧
      ((s.addToCart p).addToCart p).cart =
        s.cart ++ [{ id := p.id, name := p.name, price := p.price, quantity := 1 + 1 }]) ∧
    (1 : F64) + 1 = 2 ∧
    ∀ n : Nat, n + 1 < 2 ^ 53 →
      F64.ofFrac (n : Int) 1 + (1 : F64) = F64.ofFrac ((n : Int) + 1) 1 := by
  refine ⟨?_, ?_, by decide, ?_⟩
  · intro h
    rw [addToCart_of_mem s p h]
    refine ⟨by simp, ?_⟩
    obtain ⟨entry, hmem, hid⟩ := h
    obtain ⟨before, after, hsplit⟩ := List.append_of_mem hmem
    refine ⟨before, entry, after, hsplit, hid, ?_⟩
    rw [hsplit] at hnodup ⊢
    simp only [List.map_append, List.map_cons] at hnodup
    have hparts := List.nodup_append.mp hnodup
    have hcons := List.nodup_cons.mp hparts.2.1
    have hbefore : ∀ item ∈ before, item.id ≠ p.id := by
      intro item hi heq
      have h1 : item.id ∈ before.map fun item => item.id := List.mem_map_of_mem _ hi
      have h2 : item.id ∈ entry.id :: after.map fun item => item.id := by
        rw [heq, hid]
        exact List.mem_cons_self _ _
      exact List.disjoint_left.mp hparts.2.2 h1 h2
    have hafter : ∀ item ∈ after, item.id ≠ p.id := by
      intro item hi heq
      apply hcons.1
      rw [hid, ← heq]
      exact List.mem_map_of_mem _ hi
    simp only [List.map_append, List.map_cons, map_bump_of_forall_ne before p.id hbefore,
      map_bump_of_forall_ne after p.id hafter, hid, if_true]
  · intro h
    have h1 := addToCart_of_not_mem s p h
    refine ⟨h1, ?_⟩
    have hmem : ∃ item ∈ (s.addToCart p).cart, item.id = p.id := by
      rw [h1]
      exact ⟨{ id := p.id, name := p.name, price := p.price, quantity := 1 }, by simp, rfl⟩
    rw [addToCart_of_mem (s.addToCart p) p hmem, h1]
    simp only [List.map_append, List.map_cons, List.map_nil, map_bump_of_forall_ne s.cart p.id h,
      if_true]
  · intro n hn
    have h1 : (1 : Nat) < 2 ^ 53 := by norm_num
    have := add_whole n 1 (by omega) h1
    simpa using this

/-- Witness of the amended C7: product B is added to a cart that holds A and B, in binary64. -/
theorem addToCart_merges_or_appends_witness :
    (twoItemCart.addToCart productB).cart.length = twoItemCart.cart.length ∧
    ∃ before entry after, twoItemCart.cart = before ++ entry :: after ∧ entry.id = productB.id ∧
      (twoItemCart.addToCart productB).cart =
        before ++ { entry with quantity := entry.quantity + 1 } :: after :=
  (addToCart_merges_or_appends twoItemCart productB (by decide)).1
    ⟨{ id := some "B", name := "Bucket", price := 5, quantity := 1 }, by decide, rfl⟩

/-- Counterexample to C8: for a cart of one unit at 0.1 and one unit at 0.2, `total` returns the
binary64 value `1351079888211149 / 2^52` (printed `0.30000000000000004`), which is neither the
exact sum of the entries' prices times quantities nor 3/10. -/
theorem total_rounds_binary64 :
    tenthsCart.total.1 = ⟨1351079888211149, -52⟩ ∧
    F64.toRat ⟨1351079888211149, -52⟩ ≠
      (tenthsCart.cart.map fun item => item.price.toRat * item.quantity.toRat).sum ∧
    F64.toRat ⟨1351079888211149, -52⟩ ≠ 3 / 10 := by
  have hcart : tenthsCart.cart =
      [{ id := some "A", name := "Anvil", price := ⟨3602879701896397, -55⟩, quantity := ⟨1, 0⟩ },
       { id := some "B", name := "Bucket", price := ⟨3602879701896397, -54⟩,
         quantity := ⟨1, 0⟩ }] := by
    decide
  refine ⟨?_, ?_, ?_⟩
  · set_option maxRecDepth 100000 in
    decide
  · rw [hcart]
    norm_num [F64.toRat, F64.num, F64.den, Int.toNat]
  · norm_num [F64.toRat, F64.num, F64.den, Int.toNat]

/-- C8, amended: in every state of the store, so also after any sequence of `addToCart`,
`removeFromCart` and `clearCart` calls, `total` returns the accumulation, from 0 and from left
to right, of price times quantity over the current entries in the arithmetic of the engine,
which is 0 for the empty cart; it leaves the store as it is, and a second call returns the same
value.  In binary64 that accumulation is the exact sum when the prices and quantities are whole
numbers below `2^53` whose exact sum is below `2^53`. -/
theorem total_is_accumulated_sum {N : Type} [Add N] [Mul N] [OfNat N 0] [OfNat N 1]
    (s : CartStore N) (actions : List (CartAction N)) :
    s.total.1 = s.cart.foldl (fun sum item => sum + item.price * item.quantity) 0 ∧
    (s.run actions).total.1 =
      (s.run actions).cart.foldl (fun sum item => sum + item.price * item.quantity) 0 ∧
    (CartStore.init : CartStore N).total.1 = 0 ∧
    s.clearCart.total.1 = 0 ∧
    s.total.2 = s ∧
    s.total.2.total.1 = s.total.1 ∧
    ∀ t : CartStore F64,
      (∀ item ∈ t.cart, item.price.IsWhole ∧ item.quantity.IsWhole) →
      (t.cart.map fun item => item.price.num.toNat * item.quantity.num.toNat).sum < 2 ^ 53 →
      t.total.1.toRat = (t.cart.map fun item => item.price.toRat * item.quantity.toRat).sum :=
  ⟨rfl, rfl, rfl, rfl, rfl, rfl, fun t hw hsum =>
    foldl_whole_exact (fun item : CartItem F64 => item.price) (fun item => item.quantity)
      t.cart hw hsum⟩

/-- Witness of the amended C8: in binary64 the total of two units at 10 and one unit at 5 is
the exact sum. -/
theorem total_is_accumulated_sum_witness :
    twoItemCart.total.1.toRat =
      (twoItemCart.cart.map fun item => item.price.toRat * item.quantity.toRat).sum :=
  (total_is_accumulated_sum twoItemCart []).2.2.2.2.2.2 twoItemCart (by decide) (by decide)

/-- The quantity bump of `addToCart` keeps the ids of the entries. -/
theorem map_id_map_bump {N : Type} [Add N] [OfNat N 1] (l : List (CartItem N))
    (k : Option String) :
    (l.map (fun item =>
        if item.id = k then { item with quantity := item.quantity + 1 } else item)).map
      (fun item => item.id) = l.map fun item => item.id := by
  induction l with
  | nil => rfl
  | cons a rest ih =>
    simp only [List.map_cons, ih]
    by_cases ha : a.id = k <;> simp [ha]

/-- The action `addToCart` keeps a cart well-formed. -/
theorem wellFormed_addToCart (s : CartStore ℚ) (p : Product ℚ) (h : s.WellFormed) :
    (s.addToCart p).WellFormed := by
  by_cases hmem : ∃ item ∈ s.cart, item.id = p.id
  · unfold CartStore.WellFormed
    rw [addToCart_of_mem s p hmem, map_id_map_bump]
    refine ⟨h.1, ?_⟩
    intro item hi
    obtain ⟨old, hold, rfl⟩ := List.mem_map.mp hi
    have hq := h.2 old hold
    by_cases hid : old.id = p.id
    · simp only [hid, if_true]
      linarith
    · simpa [hid] using hq
  · have hnot : ∀ item ∈ s.cart, item.id ≠ p.id := fun item hi heq => hmem ⟨item, hi, heq⟩
    unfold CartStore.WellFormed
    rw [addToCart_of_not_mem s p hnot]
    constructor
    · rw [List.map_append, List.nodup_append]
      refine ⟨h.1, by simp, ?_⟩
      intro x hx hx2
      obtain ⟨item, hi, rfl⟩ := List.mem_map.mp hx
      simp only [List.map_cons, List.map_nil, List.mem_singleton] at hx2
      exact hnot item hi hx2
    · intro item hi
      rcases List.mem_append.mp hi with hi | hi
      · exact h.2 item hi
      · rw [List.mem_singleton.mp hi]

/-- The action `removeFromCart` keeps a cart well-formed. -/
theorem wellFormed_removeFromCart (s : CartStore ℚ) (productId : Option String)
    (h : s.WellFormed) : (s.removeFromCart productId).WellFormed := by
  constructor
  · exact h.1.sublist ((List.filter_sublist s.cart).map _)
  · intro item hi
    exact h.2 item (List.mem_of_mem_filter hi)

/-- Every action keeps a cart well-formed. -/
theorem wellFormed_step (s : CartStore ℚ) (a : CartAction ℚ) (h : s.WellFormed) :
    (s.step a).WellFormed := by
  cases a with
  | addToCart product => exact wellFormed_addToCart s product h
  | removeFromCart productId => exact wellFormed_removeFromCart s productId h
  | clearCart => exact ⟨List.nodup_nil, fun _ hi => absurd hi (List.not_mem_nil _)⟩

/-- Every sequence of actions keeps a cart well-formed. -/
theorem wellFormed_run (actions : List (CartAction ℚ)) (s : CartStore ℚ) (h : s.WellFormed) :
    (s.run actions).WellFormed := by
  induction actions generalizing s with
  | nil => exact h
  | cons a rest ih => exact ih (s.step a) (wellFormed_step s a h)

/-- C10: every cart reached from the empty cart by `addToCart`, `removeFromCart` and
`clearCart` calls, whatever the products (a product's own `quantity` field is overwritten), has
pairwise distinct product ids and every quantity at least 1. -/
theorem reachable_cart_wellFormed (actions : List (CartAction ℚ)) :
    (((CartStore.init : CartStore ℚ).run actions).cart.map fun item => item.id).Nodup ∧
    ∀ item ∈ ((CartStore.init : CartStore ℚ).run actions).cart, 1 ≤ item.quantity :=
  wellFormed_run actions CartStore.init
    ⟨List.nodup_nil, fun _ hi => absurd hi (List.not_mem_nil _)⟩

/-! ## Properties of `getProducts` -/

/-- A query the database rejects is answered with 500 and the database's message. -/
theorem getProducts_of_rejected_query (eng : Engine) (collection : List ProductRecord)
    (query : ListQuery) (message : String)
    (h : compileQuery eng (buildQuery query) = .error message) :
    getProducts eng collection query = .error 500 message := by
  simp only [getProducts, find, h]

/-- A sort argument the database rejects is answered with 500 and the database's message. -/
theorem getProducts_of_rejected_sort (eng : Engine) (collection : List ProductRecord)
    (query : ListQuery) (matching : ProductRecord → Bool) (message : String)
    (hquery : compileQuery eng (buildQuery query) = .ok matching)
    (hsort : eng.sortOrder query.sort = .error message) :
    getProducts eng collection query = .error 500 message := by
  simp only [getProducts, find, hquery, hsort]

/-- What `find` resolves with when the database accepts the query, the sort argument and the
`skip`; skipping at least as many records as match leaves no product. -/
theorem find_of_accepted (eng : Engine) (collection : List ProductRecord) (query : Filter)
    (sort : Option String) (limit skip : Nat) (matching : ProductRecord → Bool)
    (order : Option (ProductRecord → ProductRecord → Bool))
    (hquery : compileQuery eng query = .ok matching) (hsort : eng.sortOrder sort = .ok order) :
    ∃ products, find eng collection query sort limit (skip : Int) = .ok products ∧
      ((collection.filter matching).length ≤ skip → products = []) := by
  have hnot : ¬ ((skip : Int) < 0) := by omega
  simp only [find, hquery, hsort, hnot, if_false, Int.toNat_ofNat]
  refine ⟨_, rfl, ?_⟩
  intro hle
  have hlen : (match order with
      | some le => (collection.filter matching).mergeSort le
      | none => collection.filter matching).length = (collection.filter matching).length := by
    cases order with
    | none => rfl
    | some le => exact List.length_mergeSort _
  have hdrop : (match order with
      | some le => (collection.filter matching).mergeSort le
      | none => collection.filter matching).drop skip = [] := by
    apply List.drop_eq_nil_of_le
    rw [hlen]
    exact hle
  rw [hdrop]
  split <;> simp

/-- Counterexample to C9: for the search text "(", with page 1 and limit 10, the database
rejects the pattern and `getProducts` answers 500 with the database's message. -/
theorem getProducts_rejected_search :
    1 ≤ parenSearch.page.getD 1 ∧ 1 ≤ parenSearch.limit.getD 10 ∧
    getProducts sampleEngine sampleCatalogue parenSearch =
      .error 500 "Regular expression is invalid: missing closing parenthesis" := by
  decide

/-- C9, amended: for `page ≥ 1` and `limit ≥ 1`, over any collection and with any filter and
sort argument that the database accepts, `getProducts` answers with products, the page asked
for and `totalPages = ⌈count / limit⌉`, `count` being the number of matching records: that is 0,
1, 1 and 2 pages for `count` 0, 1, `limit` and `limit + 1`; for a page beyond `totalPages` the
products are the empty list. -/
theorem getProducts_pagination (eng : Engine) (collection : List ProductRecord)
    (query : ListQuery) (matching : ProductRecord → Bool)
    (order : Option (ProductRecord → ProductRecord → Bool))
    (hpage : 1 ≤ query.page.getD 1) (hlimit : 1 ≤ query.limit.getD 10)
    (hquery : compileQuery eng (buildQuery query) = .ok matching)
    (hsort : eng.sortOrder query.sort = .ok order) :
    ∃ products totalPages,
      getProducts eng collection query =
        .ok products (some totalPages) (query.page.getD 1) ∧
      countDocuments eng collection (buildQuery query) =
        .ok (collection.filter matching).length ∧
      totalPages =
        ⌈((collection.filter matching).length : ℚ) / (query.limit.getD 10 : ℚ)⌉₊ ∧
      ((collection.filter matching).length = 0 → totalPages = 0) ∧
      ((collection.filter matching).length = 1 → totalPages = 1) ∧
      ((collection.filter matching).length = query.limit.getD 10 → totalPages = 1) ∧
      ((collection.filter matching).length = query.limit.getD 10 + 1 → totalPages = 2) ∧
      (totalPages < query.page.getD 1 → products = []) := by
  generalize hp : query.page.getD 1 = page at hpage
  generalize hl : query.limit.getD 10 = limit at hlimit
  generalize hc : (collection.filter matching).length = count
  have hlpos : (0 : ℚ) < (limit : ℚ) := by exact_mod_cast hlimit
  have hne : limit ≠ 0 := by omega
  have hskip : ((page : Int) - 1) * (limit : Int) = (((page - 1) * limit : Nat) : Int) := by
    push_cast [Nat.cast_sub hpage]
    ring
  obtain ⟨products, hfind, hnil⟩ :=
    find_of_accepted eng collection (buildQuery query) query.sort (limit * 1)
      ((page - 1) * limit) matching order hquery hsort
  have hcount : countDocuments eng collection (buildQuery query) = .ok count := by
    simp only [countDocuments, hquery, hc]
  refine ⟨products, ⌈(count : ℚ) / (limit : ℚ)⌉₊, ?_, hcount, rfl, ?_, ?_, ?_, ?_, ?_⟩
  · simp only [getProducts, hp, hl, hskip, hfind, hcount, mathCeilDiv, hne, if_false]
  · intro h0
    simp [h0]
  · intro h1
    rw [h1, Nat.ceil_eq_iff (by norm_num)]
    constructor
    · simpa using hlpos
    · rw [div_le_iff₀ hlpos]
      simpa using (by exact_mod_cast hlimit : (1 : ℚ) ≤ (limit : ℚ))
  · intro h2
    rw [h2, div_self (ne_of_gt hlpos)]
    simp
  · intro h3
    rw [h3, Nat.ceil_eq_iff (by norm_num)]
    constructor
    · rw [lt_div_iff₀ hlpos]
      push_cast
      linarith
    · rw [div_le_iff₀ hlpos]
      push_cast
      have : (1 : ℚ) ≤ (limit : ℚ) := by exact_mod_cast hlimit
      linarith
  · intro hbeyond
    have hle : (count : ℚ) / (limit : ℚ) ≤ (⌈(count : ℚ) / (limit : ℚ)⌉₊ : ℚ) := Nat.le_ceil _
    rw [div_le_iff₀ hlpos] at hle
    have hle2 : count ≤ ⌈(count : ℚ) / (limit : ℚ)⌉₊ * limit := by exact_mod_cast hle
    have hpages : ⌈(count : ℚ) / (limit : ℚ)⌉₊ ≤ page - 1 := by omega
    apply hnil
    rw [hc]
    exact le_trans hle2 (Nat.mul_le_mul_right limit hpages)

/-- Witness of the amended C9: the third page of three products, two a page. -/
theorem getProducts_pagination_witness :
    ∃ products totalPages,
      getProducts sampleEngine sampleCatalogue thirdPage =
        .ok products (some totalPages) (thirdPage.page.getD 1) ∧
      countDocuments sampleEngine sampleCatalogue (buildQuery thirdPage) =
        .ok (sampleCatalogue.filter fun _ => true).length ∧
      totalPages =
        ⌈((sampleCatalogue.filter fun _ => true).length : ℚ) /
          (thirdPage.limit.getD 10 : ℚ)⌉₊ ∧
      ((sampleCatalogue.filter fun _ => true).length = 0 → totalPages = 0) ∧
      ((sampleCatalogue.filter fun _ => true).length = 1 → totalPages = 1) ∧
      ((sampleCatalogue.filter fun _ => true).length = thirdPage.limit.getD 10 →
        totalPages = 1) ∧
      ((sampleCatalogue.filter fun _ => true).length = thirdPage.limit.getD 10 + 1 →
        totalPages = 2) ∧
      (totalPages < thirdPage.page.getD 1 → products = []) :=
  getProducts_pagination sampleEngine sampleCatalogue thirdPage (fun _ => true) none
    (by decide) (by decide) rfl rfl

end Shop
